import Mathlib

/-!
Shallow embedding of the kreditomat-backend loan engine
(`app/services/calculator.py`, `app/services/pdn.py`, `app/services/scoring.py`)
and proofs about it.

Conventions of the embedding:
* Python `Decimal` values are modelled as exact rationals (`ℚ`); the
  `Decimal.quantize(..., ROUND_HALF_UP)` calls of the source are modelled
  explicitly by `quantize` below (round half away from zero, matching
  `ROUND_HALF_UP`).  The 28-significant-digit context rounding of
  intermediate `Decimal` divisions is below every quantization step used
  by the code and is not modelled.
* Python `int` is modelled as `ℤ`.
* Functions that can `raise` are modelled with `Except PyError`.
* The module-level `settings = get_settings()` object is modelled by the
  constants below, taken from the defaults in `app/core/config.py`.
-/

/-- Rounding of `x` to an integer with `ROUND_HALF_UP` (Python `Decimal`
semantics: half rounds away from zero). -/
def halfUpZ (x : ℚ) : ℤ :=
  if x < 0 then -⌊-x + 1/2⌋ else ⌊x + 1/2⌋

/-- Python `x.quantize(Decimal(s), rounding=ROUND_HALF_UP)`: rounding of `x`
to an integer multiple of the quantum `s`.  NOTE: for `Decimal('0.01')` the
quantum is `1/100`, but for `Decimal('100000')` the quantum is `1` (the
exponent of the literal `100000` is `0`, so Python quantizes to an integer,
not to a multiple of 100000). -/
def quantize (s : ℚ) (x : ℚ) : ℚ :=
  (halfUpZ (x / s) : ℚ) * s

/-- Error kinds raised by the embedded services (Python raises `ValueError`
or a `decimal` exception; only the kind matters here). -/
inductive PyError where
  /-- Python message "Loan term must be positive" -/
  | termNotPositive
  /-- Python message "Loan amount must be positive" -/
  | amountNotPositive
  /-- Python message "Monthly payment must be positive" -/
  | paymentNotPositive
  /-- Python message "Invalid loan parameters: ..." -/
  | invalidLoanParams
  /-- Python message "Monthly income must be positive" -/
  | invalidIncome
  /-- Python message "Cannot afford any loan with current income and obligations" -/
  | unaffordableLoan
  /-- Embeds `decimal` division by zero (annuity denominator `rate_power - 1 = 0`) -/
  | divisionByZero
  /-- Python AttributeError raised inside `calculate_monthly_payment` when its
  zero-rate branch runs on a plain-int amount: `amount / months` is then a
  float, which has no `.quantize` (the loop variable `min_amount` starts as
  the int `settings.MIN_LOAN_AMOUNT`) -/
  | attributeError
  /-- fuel exhaustion of the embedded binary-search loop (proved unreachable
  for bounded inputs) -/
  | fuelExhausted
  deriving DecidableEq

/-- Embeds `app/core/config.py` default `MIN_LOAN_AMOUNT = 1`. -/
def MIN_LOAN_AMOUNT : ℚ := 1

/-- Embeds `app/core/config.py` default `MAX_LOAN_AMOUNT = 100_000_000`. -/
def MAX_LOAN_AMOUNT : ℚ := 100000000

/-- Embeds `app/core/config.py` default `MIN_LOAN_TERM_MONTHS = 1`. -/
def MIN_LOAN_TERM_MONTHS : ℤ := 1

/-- Embeds `app/core/config.py` default `MAX_LOAN_TERM_MONTHS = 36`. -/
def MAX_LOAN_TERM_MONTHS : ℤ := 36

/-- Embeds `calculate_monthly_payment` from `app/services/calculator.py` (annuity
formula, result quantized to 2 decimals with `ROUND_HALF_UP`).  The `amount`
argument is modelled as a `Decimal`; the one call site that can pass a plain
Python int instead (the post-loop recomputation of `auto_correct_loan_params`,
where the zero-rate branch would crash with AttributeError on the resulting
float) guards that case explicitly — see `reduce_amount_step`. -/
def calculate_monthly_payment (amount annual_rate : ℚ) (months : ℤ) :
    Except PyError ℚ :=
  if months ≤ 0 then .error .termNotPositive
  else if amount ≤ 0 then .error .amountNotPositive
  else
    let monthly_rate := annual_rate / 100 / 12
    if monthly_rate = 0 then
      .ok (quantize (1/100) (amount / months))
    else
      let rate_power := (1 + monthly_rate) ^ months.toNat
      if rate_power - 1 = 0 then .error .divisionByZero
      else .ok (quantize (1/100) (amount * (monthly_rate * rate_power) / (rate_power - 1)))

/-- Embeds `calculate_total_cost` from `app/services/calculator.py`. -/
def calculate_total_cost (monthly_payment : ℚ) (months : ℤ) : Except PyError ℚ :=
  if months ≤ 0 then .error .termNotPositive
  else if monthly_payment ≤ 0 then .error .paymentNotPositive
  else .ok (quantize (1/100) (monthly_payment * months))

/-- Embeds `calculate_overpayment` from `app/services/calculator.py`. -/
def calculate_overpayment (amount total_cost : ℚ) : ℚ :=
  quantize (1/100) (total_cost - amount)

/-- Embeds `calculate_effective_rate` from `app/services/calculator.py`. -/
def calculate_effective_rate (amount total_cost : ℚ) (months : ℤ) : ℚ :=
  if months ≤ 0 ∨ amount ≤ 0 then 0
  else
    let total_interest := total_cost - amount
    let years : ℚ := (months : ℚ) / 12
    quantize (1/100) (total_interest / amount / years * 100)

/-- Embeds `validate_loan_params` from `app/services/calculator.py`; only the
`"valid"` flag of the returned dict is modelled (the `"errors"` entry is a
list of human-readable strings). -/
def validate_loan_params (amount : ℚ) (months : ℤ) : Bool :=
  decide (MIN_LOAN_AMOUNT ≤ amount) && decide (amount ≤ MAX_LOAN_AMOUNT) &&
  decide (MIN_LOAN_TERM_MONTHS ≤ months) && decide (months ≤ MAX_LOAN_TERM_MONTHS)

/-- Result dict of `calculate_loan_details`. -/
structure LoanDetails where
  amount : ℚ
  annual_rate : ℚ
  months : ℤ
  monthly_payment : ℚ
  total_cost : ℚ
  overpayment : ℚ
  overpayment_percentage : ℚ
  effective_rate : ℚ
  daily_rate : ℚ
  deriving DecidableEq

/-- Embeds `calculate_loan_details` from `app/services/calculator.py`. -/
def calculate_loan_details (amount annual_rate : ℚ) (months : ℤ) :
    Except PyError LoanDetails :=
  if validate_loan_params amount months = false then .error .invalidLoanParams
  else
    match calculate_monthly_payment amount annual_rate months with
    | .error e => .error e
    | .ok monthly_payment =>
      match calculate_total_cost monthly_payment months with
      | .error e => .error e
      | .ok total_cost =>
        let overpayment := calculate_overpayment amount total_cost
        let effective_rate := calculate_effective_rate amount total_cost months
        .ok
          { amount := amount
            annual_rate := annual_rate
            months := months
            monthly_payment := monthly_payment
            total_cost := total_cost
            overpayment := overpayment
            overpayment_percentage :=
              if 0 < amount then quantize (1/100) (overpayment / amount * 100) else 0
            effective_rate := effective_rate
            daily_rate := quantize (1/10000) (annual_rate / 365) }

/-- Constraint `annual_rate: Decimal = Field(..., ge=0, le=100)` on the loan
calculation / application request schemas (`app/schemas/application.py`):
the HTTP boundary accepts a rate iff `0 ≤ rate ≤ 100`. -/
def schema_annual_rate_ok (annual_rate : ℚ) : Bool :=
  decide (0 ≤ annual_rate) && decide (annual_rate ≤ 100)

/-- Embeds `PDNRiskLevel` from `app/services/pdn.py`. -/
inductive PDNRiskLevel where
  | low
  | medium
  | high
  | critical
  deriving DecidableEq

/-- Embeds `calculate_pdn` from `app/services/pdn.py`. -/
def calculate_pdn (monthly_payment monthly_income other_monthly_payments : ℚ) :
    Except PyError ℚ :=
  if monthly_income ≤ 0 then .error .invalidIncome
  else
    let total_payments := monthly_payment + other_monthly_payments
    .ok (quantize (1/100) (total_payments / monthly_income * 100))

/-- Embeds `get_pdn_risk_level` from `app/services/pdn.py`. -/
def get_pdn_risk_level (pdn : ℚ) : PDNRiskLevel :=
  if pdn < 30 then .low
  else if pdn < 50 then .medium
  else if pdn < 65 then .high
  else .critical

-- sanity checks of the embedding against concrete reference values
example : calculate_pdn 500000 2000000 0 = .ok 25 := by
  norm_num [calculate_pdn, quantize, halfUpZ]

example : calculate_pdn 500000 2000000 300000 = .ok 40 := by
  norm_num [calculate_pdn, quantize, halfUpZ]

example : calculate_monthly_payment 100 0 36 = .ok (278/100) := by
  norm_num [calculate_monthly_payment, quantize, halfUpZ]

/-- One entry of the `corrections` list built by `auto_correct_loan_params`
(`"type"` / `"from"` / `"to"`; the static `"reason"` strings are omitted). -/
inductive CorrectionStep where
  /-- Python dict `{"type": "term_extended", "from": .., "to": ..}` -/
  | term_extended (fromVal toVal : ℤ)
  /-- Python dict `{"type": "amount_reduced", "from": .., "to": ..}` -/
  | amount_reduced (fromVal toVal : ℚ)
  deriving DecidableEq

/-- Result dict of `auto_correct_loan_params`. -/
structure AutoCorrectResult where
  amount : ℚ
  months : ℤ
  monthly_payment : ℚ
  pdn : ℚ
  risk_level : PDNRiskLevel
  corrected : Bool
  corrections : List CorrectionStep
  deriving DecidableEq

/-- The `while max_amount - min_amount > Decimal("100000")` binary-search
loop of `auto_correct_loan_params` (`app/services/pdn.py`, step 2), with
explicit fuel.  `none` means the fuel ran out (proved unreachable for
bounded widths), `some (.error e)` propagates an exception raised inside
the loop body, `some (.ok (min_amount, max_amount))` is the state of the
two loop variables on normal exit.  NOTE: `mid_amount` is quantized with
quantum `1` because `Decimal('100000')` has exponent 0 (see `quantize`). -/
def binary_search_loop (fuel : ℕ) (annual_rate : ℚ) (months : ℤ)
    (monthly_income other_monthly_payments target_pdn : ℚ)
    (min_amount max_amount : ℚ) : Option (Except PyError (ℚ × ℚ)) :=
  match fuel with
  | 0 =>
    if max_amount - min_amount > 100000 then none
    else some (.ok (min_amount, max_amount))
  | n + 1 =>
    if max_amount - min_amount > 100000 then
      let mid_amount := quantize 1 ((min_amount + max_amount) / 2)
      match calculate_monthly_payment mid_amount annual_rate months with
      | .error e => some (.error e)
      | .ok mid_payment =>
        match calculate_pdn mid_payment monthly_income other_monthly_payments with
        | .error e => some (.error e)
        | .ok mid_pdn =>
          if mid_pdn ≤ target_pdn then
            binary_search_loop n annual_rate months monthly_income
              other_monthly_payments target_pdn mid_amount max_amount
          else
            binary_search_loop n annual_rate months monthly_income
              other_monthly_payments target_pdn min_amount mid_amount
    else some (.ok (min_amount, max_amount))

/-- Unfolding equation of `binary_search_loop` for positive fuel. -/
theorem binary_search_loop_succ (n : ℕ) (annual_rate : ℚ) (months : ℤ)
    (monthly_income other_monthly_payments target_pdn min_amount max_amount : ℚ) :
    binary_search_loop (n + 1) annual_rate months monthly_income
      other_monthly_payments target_pdn min_amount max_amount =
    (if max_amount - min_amount > 100000 then
      match calculate_monthly_payment (quantize 1 ((min_amount + max_amount) / 2))
        annual_rate months with
      | .error e => some (.error e)
      | .ok mid_payment =>
        match calculate_pdn mid_payment monthly_income other_monthly_payments with
        | .error e => some (.error e)
        | .ok mid_pdn =>
          if mid_pdn ≤ target_pdn then
            binary_search_loop n annual_rate months monthly_income
              other_monthly_payments target_pdn
              (quantize 1 ((min_amount + max_amount) / 2)) max_amount
          else
            binary_search_loop n annual_rate months monthly_income
              other_monthly_payments target_pdn min_amount
              (quantize 1 ((min_amount + max_amount) / 2))
    else some (.ok (min_amount, max_amount))) := rfl

/-- Step 2 of `auto_correct_loan_params` ("Reduce amount to achieve target
PDN"): affordability ceiling check, binary search, and assembly of the
final corrected result (`app/services/pdn.py`, lines 145-189), including
the AttributeError crash of the post-loop recomputation on a zero monthly
rate when the search never replaced the int lower bound. -/
def reduce_amount_step (amount annual_rate : ℚ) (corrected_months : ℤ)
    (monthly_income other_monthly_payments target_pdn : ℚ)
    (corrections : List CorrectionStep) : Except PyError AutoCorrectResult :=
  let max_monthly_payment := monthly_income * target_pdn / 100 - other_monthly_payments
  if max_monthly_payment ≤ 0 then .error .unaffordableLoan
  else
    match binary_search_loop 64 annual_rate corrected_months monthly_income
      other_monthly_payments target_pdn MIN_LOAN_AMOUNT amount with
    | none => .error .fuelExhausted
    | some (.error e) => .error e
    | some (.ok (min_amount, _)) =>
      -- In the source, `min_amount` starts as the plain int
      -- `settings.MIN_LOAN_AMOUNT` and is only ever replaced by strictly larger
      -- Decimal midpoints (`binary_search_loop_min_unchanged_or_larger`), so
      -- the recomputation below receives that int exactly when `min_amount` is
      -- numerically unchanged.  With an int amount the zero-rate branch of
      -- `calculate_monthly_payment` crashes with AttributeError after the term
      -- guard has passed (`amount / months` is a float with no `.quantize`;
      -- the amount guard cannot fire since `MIN_LOAN_AMOUNT = 1 > 0`), while
      -- the nonzero-rate branch coerces the int via `int * Decimal`.
      if min_amount = MIN_LOAN_AMOUNT ∧ annual_rate / 100 / 12 = 0 ∧ 0 < corrected_months then
        .error .attributeError
      else
        match calculate_monthly_payment min_amount annual_rate corrected_months with
        | .error e => .error e
        | .ok monthly_payment =>
          match calculate_pdn monthly_payment monthly_income other_monthly_payments with
          | .error e => .error e
          | .ok current_pdn =>
            .ok
              { amount := min_amount
                months := corrected_months
                monthly_payment := monthly_payment
                pdn := current_pdn
                risk_level := get_pdn_risk_level current_pdn
                corrected := true
                corrections := corrections ++ [.amount_reduced amount min_amount] }

/-- Embeds `auto_correct_loan_params` from `app/services/pdn.py`: validates the
parameters, returns the uncorrected result if the PDN already meets the
target, otherwise extends the term to 36 months (when `months < 36`) and,
if that is not enough, reduces the amount via `reduce_amount_step`. -/
def auto_correct_loan_params (amount annual_rate : ℚ) (months : ℤ)
    (monthly_income other_monthly_payments target_pdn : ℚ) :
    Except PyError AutoCorrectResult :=
  if validate_loan_params amount months = false then .error .invalidLoanParams
  else
    match calculate_monthly_payment amount annual_rate months with
    | .error e => .error e
    | .ok monthly_payment =>
      match calculate_pdn monthly_payment monthly_income other_monthly_payments with
      | .error e => .error e
      | .ok current_pdn =>
        if current_pdn ≤ target_pdn then
          .ok
            { amount := amount, months := months, monthly_payment := monthly_payment
              pdn := current_pdn, risk_level := get_pdn_risk_level current_pdn
              corrected := false, corrections := [] }
        else if months < 36 then
          match calculate_monthly_payment amount annual_rate 36 with
          | .error e => .error e
          | .ok mp36 =>
            match calculate_pdn mp36 monthly_income other_monthly_payments with
            | .error e => .error e
            | .ok pdn36 =>
              if pdn36 ≤ target_pdn then
                .ok
                  { amount := amount, months := 36, monthly_payment := mp36
                    pdn := pdn36, risk_level := get_pdn_risk_level pdn36
                    corrected := true, corrections := [.term_extended months 36] }
              else
                reduce_amount_step amount annual_rate 36 monthly_income
                  other_monthly_payments target_pdn [.term_extended months 36]
        else
          reduce_amount_step amount annual_rate months monthly_income
            other_monthly_payments target_pdn []

/-- Embeds `calculate_max_loan_amount` from `app/services/pdn.py`.  The result is
quantized with quantum `1` (the `Decimal('100000')` exponent-0 argument
again) and clamped to the system bounds.  The power `(1 + r) ** months` is
modelled with `zpow` since `months` is an unguarded Python `int` here. -/
def calculate_max_loan_amount (annual_rate : ℚ) (months : ℤ)
    (monthly_income other_monthly_payments target_pdn : ℚ) : ℚ :=
  let max_monthly_payment := monthly_income * target_pdn / 100 - other_monthly_payments
  if max_monthly_payment ≤ 0 then 0
  else
    let monthly_rate := annual_rate / 100 / 12
    let max_amount :=
      if monthly_rate = 0 then max_monthly_payment * months
      else
        let rate_power := (1 + monthly_rate) ^ (months : ℤ)
        max_monthly_payment * (rate_power - 1) / (monthly_rate * rate_power)
    max (min (quantize 1 max_amount) MAX_LOAN_AMOUNT) MIN_LOAN_AMOUNT

example : calculate_max_loan_amount 0 12 1000000 0 50 = 6000000 := by
  norm_num [calculate_max_loan_amount, quantize, halfUpZ, MAX_LOAN_AMOUNT, MIN_LOAN_AMOUNT]

/-- Embeds `Gender` enum (`app/models/personal_data.py`). -/
inductive Gender where
  | male
  | female
  deriving DecidableEq

/-- Embeds `MaritalStatus` enum (`app/models/personal_data.py`). -/
inductive MaritalStatus where
  | single
  | married
  | divorced
  | widowed
  deriving DecidableEq

/-- Embeds `EducationLevel` enum (`app/models/personal_data.py`). -/
inductive EducationLevel where
  | basic
  | secondary
  | higher
  deriving DecidableEq

/-- Embeds `EmploymentType` enum (`app/models/personal_data.py`). -/
inductive EmploymentType where
  | employed
  | self_employed
  | unemployed
  | retired
  | student
  deriving DecidableEq

/-- Embeds `IncomeSource` enum (`app/models/personal_data.py`). -/
inductive IncomeSource where
  | salary
  | business
  | pension
  | rental
  | other
  deriving DecidableEq

/-- Living-arrangement values as consumed by `calculate_living_score` in
`app/services/scoring.py` (`OWN`/`FAMILY`/`RENT`/`OTHER`). -/
inductive LivingArrangement where
  | own
  | family
  | rent
  | other
  deriving DecidableEq

/-- Embeds `ScoringFactor` enum from `app/services/scoring.py`. -/
inductive ScoringFactor where
  | age
  | gender
  | marital_status
  | education
  | employment
  | income
  | living_arrangement
  | pdn
  | loan_history
  | referral
  | device_type
  | region
  deriving DecidableEq

/-- Embeds `ScoreCategory` enum from `app/services/scoring.py`. -/
inductive ScoreCategory where
  | excellent
  | good
  | fair
  | poor
  | very_poor
  deriving DecidableEq

/-- Python `int(x)` on a nonnegative-or-negative rational: truncation toward
zero. -/
def pyInt (x : ℚ) : ℤ :=
  if x < 0 then ⌈x⌉ else ⌊x⌋

/-- Embeds `calculate_age_score` from `app/services/scoring.py`; the source takes
`birth_date` and computes `age = relativedelta(date.today(), birth_date).years`;
the embedding takes that computed age directly (only the `"score"` entry of
the returned dict is modelled, here and in the other factor scorers). -/
def calculate_age_score (age : ℤ) : ℤ :=
  if age < 18 then 0
  else if age ≤ 21 then 50
  else if age ≤ 25 then 80
  else if age ≤ 35 then 100
  else if age ≤ 45 then 90
  else if age ≤ 55 then 80
  else if age ≤ 65 then 60
  else 40

/-- Embeds `calculate_gender_score` from `app/services/scoring.py`. -/
def calculate_gender_score (gender : Gender) : ℤ :=
  match gender with
  | .female => 60
  | .male => 50

/-- Embeds `calculate_marital_status_score` from `app/services/scoring.py`. -/
def calculate_marital_status_score (status : MaritalStatus) : ℤ :=
  match status with
  | .married => 80
  | .single => 60
  | .divorced => 50
  | .widowed => 55

/-- Embeds `calculate_education_score` from `app/services/scoring.py`. -/
def calculate_education_score (education : EducationLevel) : ℤ :=
  match education with
  | .higher => 90
  | .secondary => 60
  | .basic => 40

/-- Embeds `calculate_employment_score` from `app/services/scoring.py`:
type base score plus tenure adjustment, floored at 0. -/
def calculate_employment_score (employment_type : EmploymentType)
    (employment_duration_months : ℤ) : ℤ :=
  let base_score : ℤ :=
    match employment_type with
    | .employed => 100
    | .self_employed => 65
    | .unemployed => 20
    | .retired => 50
    | .student => 30
  let duration_bonus : ℤ :=
    if employment_duration_months < 6 then -20
    else if employment_duration_months < 12 then 0
    else if employment_duration_months < 36 then 10
    else 20
  max 0 (base_score + duration_bonus)

/-- Embeds `calculate_income_score` from `app/services/scoring.py`: income band
score times source multiplier, truncated with `int(...)`.  The source
multiplier dict has no `RENTAL` key, so `RENTAL` falls to the `.get`
default `0.7`. -/
def calculate_income_score (monthly_income : ℚ) (income_source : IncomeSource) : ℤ :=
  let base_score : ℤ :=
    if monthly_income < 500000 then 30
    else if monthly_income < 1000000 then 50
    else if monthly_income < 2000000 then 70
    else if monthly_income < 5000000 then 90
    else 100
  let modifier : ℚ :=
    match income_source with
    | .salary => 1
    | .business => 9/10
    | .pension => 8/10
    | .other => 7/10
    | .rental => 7/10
  pyInt ((base_score : ℚ) * modifier)

/-- Embeds `calculate_living_score` from `app/services/scoring.py`. -/
def calculate_living_score (living : LivingArrangement) : ℤ :=
  match living with
  | .own => 80
  | .family => 70
  | .rent => 50
  | .other => 40

/-- Embeds `calculate_pdn_score` from `app/services/scoring.py`. -/
def calculate_pdn_score (pdn_risk_level : PDNRiskLevel) : ℤ :=
  match pdn_risk_level with
  | .low => 100
  | .medium => 70
  | .high => 40
  | .critical => 10

/-- Embeds `calculate_loan_history_score` from `app/services/scoring.py`. -/
def calculate_loan_history_score (total_loans active_loans overdue_loans : ℤ) : ℤ :=
  if total_loans = 0 then 60
  else
    let base_score : ℤ :=
      if total_loans ≤ 3 then 80
      else if total_loans ≤ 6 then 70
      else 50
    let overdue_penalty := overdue_loans * 30
    let active_penalty := max 0 ((active_loans - 2) * 10)
    max 10 (base_score - overdue_penalty - active_penalty)

/-- Containment of `pat` at the head of `s` (helper for `strContains`). -/
def leadsWith : List Char → List Char → Bool
  | [], _ => true
  | _ :: _, [] => false
  | c :: cs, d :: ds => c == d && leadsWith cs ds

/-- Python `pat in s` on strings: contiguous-substring containment. -/
def containsSeq (pat : List Char) : List Char → Bool
  | [] => leadsWith pat []
  | c :: cs => leadsWith pat (c :: cs) || containsSeq pat cs

/-- Python `pat in s` for `String`s. -/
def strContains (s pat : String) : Bool :=
  containsSeq pat.toList s.toList

/-- Embeds `calculate_device_score` from `app/services/scoring.py`; substring
checks on the lowercased device type (ASCII lowercasing). -/
def calculate_device_score (device_type : String) : ℤ :=
  let l := device_type.toLower
  if strContains l "ios" || strContains l "iphone" || strContains l "ipad" then 80
  else if strContains l "android" then 60
  else if strContains l "windows" || strContains l "mac" ||
      strContains l "desktop" then 70
  else 50

/-- Embeds `calculate_region_score` from `app/services/scoring.py`; substring
checks on the lowercased region name (the source matches lowercase Cyrillic
and Latin city names; the embedding assumes the region string is already
lowercased where non-ASCII). -/
def calculate_region_score (region : String) : ℤ :=
  let l := region.toLower
  if strContains l "ташкент" || strContains l "tashkent" then 80
  else if strContains l "самарканд" || strContains l "бухара" ||
      strContains l "наманган" || strContains l "андижан" ||
      strContains l "фергана" then 60
  else 50

/-- The `personal_data` dict argument of `calculate_total_score`: each
field is `some v` iff the corresponding key is present.  The `birth_date`
key is modelled by the age (in years, as computed by the source from
today's date) that `calculate_age_score` derives from it. -/
structure PersonalInfo where
  age : Option ℤ
  gender : Option Gender
  marital_status : Option MaritalStatus
  education : Option EducationLevel
  employment_type : Option EmploymentType
  employment_duration_months : Option ℤ
  monthly_income : Option ℚ
  income_source : Option IncomeSource
  living_arrangement : Option LivingArrangement
  deriving DecidableEq

/-- The `loan_history` dict argument of `calculate_total_score`: each field
is `some v` iff the key is present in the dict. -/
structure LoanHistoryRec where
  total_loans : Option ℤ
  active_loans : Option ℤ
  overdue_loans : Option ℤ
  deriving DecidableEq

/-- Python truthiness of the `loan_history` dict (`if loan_history:`):
`None` and the empty dict are falsy. -/
def loanHistoryTruthy : Option LoanHistoryRec → Bool
  | none => false
  | some r => r.total_loans.isSome || r.active_loans.isSome || r.overdue_loans.isSome

/-- The `device_info` dict argument of `calculate_total_score`. -/
structure DeviceInfo where
  device_type : Option String
  region : Option String
  deriving DecidableEq

/-- Condition `device_info and "device_type" in device_info` of the source. -/
def deviceTypePresent : Option DeviceInfo → Bool
  | none => false
  | some d => d.device_type.isSome

/-- Condition `device_info and "region" in device_info` of the source. -/
def regionPresent : Option DeviceInfo → Bool
  | none => false
  | some d => d.region.isSome

/-- One entry of the `factors` list of `calculate_total_score` (the nested
`"details"` dict is omitted). -/
structure ScoreFactor where
  factor : ScoringFactor
  score : ℤ
  weight : ℕ
  weighted_score : ℚ
  deriving DecidableEq

/-- Age block of `calculate_total_score` (`if "birth_date" in personal_data`,
weight 15). -/
def ageFactor (p : PersonalInfo) : List ScoreFactor :=
  match p.age with
  | some a => [⟨.age, calculate_age_score a, 15, (calculate_age_score a : ℚ) * (15/100)⟩]
  | none => []

/-- Gender block of `calculate_total_score` (weight 5). -/
def genderFactor (p : PersonalInfo) : List ScoreFactor :=
  match p.gender with
  | some g => [⟨.gender, calculate_gender_score g, 5, (calculate_gender_score g : ℚ) * (5/100)⟩]
  | none => []

/-- Marital-status block of `calculate_total_score` (weight 5). -/
def maritalFactor (p : PersonalInfo) : List ScoreFactor :=
  match p.marital_status with
  | some m =>
    [⟨.marital_status, calculate_marital_status_score m, 5,
      (calculate_marital_status_score m : ℚ) * (5/100)⟩]
  | none => []

/-- Education block of `calculate_total_score` (weight 10). -/
def educationFactor (p : PersonalInfo) : List ScoreFactor :=
  match p.education with
  | some e =>
    [⟨.education, calculate_education_score e, 10,
      (calculate_education_score e : ℚ) * (10/100)⟩]
  | none => []

/-- Employment block of `calculate_total_score` (weight 20; the duration
uses `personal_data.get("employment_duration_months", 0)`). -/
def employmentFactor (p : PersonalInfo) : List ScoreFactor :=
  match p.employment_type with
  | some t =>
    [⟨.employment, calculate_employment_score t (p.employment_duration_months.getD 0), 20,
      (calculate_employment_score t (p.employment_duration_months.getD 0) : ℚ) * (20/100)⟩]
  | none => []

/-- Income block of `calculate_total_score` (requires both `monthly_income`
and `income_source`; weight 20). -/
def incomeFactor (p : PersonalInfo) : List ScoreFactor :=
  match p.monthly_income, p.income_source with
  | some i, some s =>
    [⟨.income, calculate_income_score i s, 20, (calculate_income_score i s : ℚ) * (20/100)⟩]
  | _, _ => []

/-- Living-arrangement block of `calculate_total_score` (weight 5). -/
def livingFactor (p : PersonalInfo) : List ScoreFactor :=
  match p.living_arrangement with
  | some l =>
    [⟨.living_arrangement, calculate_living_score l, 5,
      (calculate_living_score l : ℚ) * (5/100)⟩]
  | none => []

/-- PDN block of `calculate_total_score` — unconditional (weight 15). -/
def pdnFactor (pdn_risk_level : PDNRiskLevel) : List ScoreFactor :=
  [⟨.pdn, calculate_pdn_score pdn_risk_level, 15,
    (calculate_pdn_score pdn_risk_level : ℚ) * (15/100)⟩]

/-- Loan-history block of `calculate_total_score` (`if loan_history:`,
weight 10; the three counts use `.get(key, 0)`). -/
def historyFactor (lh : Option LoanHistoryRec) : List ScoreFactor :=
  match lh with
  | some r =>
    if r.total_loans.isSome || r.active_loans.isSome || r.overdue_loans.isSome then
      [⟨.loan_history,
        calculate_loan_history_score (r.total_loans.getD 0) (r.active_loans.getD 0)
          (r.overdue_loans.getD 0), 10,
        (calculate_loan_history_score (r.total_loans.getD 0) (r.active_loans.getD 0)
          (r.overdue_loans.getD 0) : ℚ) * (10/100)⟩]
    else []
  | none => []

/-- Device block of `calculate_total_score` (weight 3). -/
def deviceFactor (di : Option DeviceInfo) : List ScoreFactor :=
  match di with
  | some d =>
    match d.device_type with
    | some s => [⟨.device_type, calculate_device_score s, 3, (calculate_device_score s : ℚ) * (3/100)⟩]
    | none => []
  | none => []

/-- Region block of `calculate_total_score` (weight 2). -/
def regionFactor (di : Option DeviceInfo) : List ScoreFactor :=
  match di with
  | some d =>
    match d.region with
    | some s => [⟨.region, calculate_region_score s, 2, (calculate_region_score s : ℚ) * (2/100)⟩]
    | none => []
  | none => []

/-- Referral block of `calculate_total_score` (fixed bonus entry, weight 0). -/
def referralFactor (has_referral : Bool) : List ScoreFactor :=
  if has_referral then [⟨.referral, 50, 0, 50⟩] else []

/-- The `factors` list built by `calculate_total_score`, in source order. -/
def scoringFactors (p : PersonalInfo) (pdn_risk_level : PDNRiskLevel)
    (loan_history : Option LoanHistoryRec) (device_info : Option DeviceInfo)
    (has_referral : Bool) : List ScoreFactor :=
  ageFactor p ++ genderFactor p ++ maritalFactor p ++ educationFactor p ++
  employmentFactor p ++ incomeFactor p ++ livingFactor p ++
  pdnFactor pdn_risk_level ++ historyFactor loan_history ++
  deviceFactor device_info ++ regionFactor device_info ++
  referralFactor has_referral

/-- The `total_weight` accumulator of `calculate_total_score`: one
`total_weight += w` statement per conditional block, in source order. -/
def total_weight (p : PersonalInfo) (loan_history : Option LoanHistoryRec)
    (device_info : Option DeviceInfo) : ℕ :=
  (if p.age.isSome then 15 else 0) +
  (if p.gender.isSome then 5 else 0) +
  (if p.marital_status.isSome then 5 else 0) +
  (if p.education.isSome then 10 else 0) +
  (if p.employment_type.isSome then 20 else 0) +
  (if p.monthly_income.isSome && p.income_source.isSome then 20 else 0) +
  (if p.living_arrangement.isSome then 5 else 0) +
  15 +
  (if loanHistoryTruthy loan_history then 10 else 0) +
  (if deviceTypePresent device_info then 3 else 0) +
  (if regionPresent device_info then 2 else 0)

/-- The `total_weighted_score` accumulator of `calculate_total_score`: one
`total_weighted_score += score * w` statement per conditional block, in
source order. -/
def total_weighted_score (p : PersonalInfo) (pdn_risk_level : PDNRiskLevel)
    (loan_history : Option LoanHistoryRec) (device_info : Option DeviceInfo) : ℚ :=
  (match p.age with
   | some a => (calculate_age_score a : ℚ) * (15/100)
   | none => 0) +
  (match p.gender with
   | some g => (calculate_gender_score g : ℚ) * (5/100)
   | none => 0) +
  (match p.marital_status with
   | some m => (calculate_marital_status_score m : ℚ) * (5/100)
   | none => 0) +
  (match p.education with
   | some e => (calculate_education_score e : ℚ) * (10/100)
   | none => 0) +
  (match p.employment_type with
   | some t => (calculate_employment_score t (p.employment_duration_months.getD 0) : ℚ) * (20/100)
   | none => 0) +
  (match p.monthly_income, p.income_source with
   | some i, some s => (calculate_income_score i s : ℚ) * (20/100)
   | _, _ => 0) +
  (match p.living_arrangement with
   | some l => (calculate_living_score l : ℚ) * (5/100)
   | none => 0) +
  (calculate_pdn_score pdn_risk_level : ℚ) * (15/100) +
  (match loan_history with
   | some r =>
     if r.total_loans.isSome || r.active_loans.isSome || r.overdue_loans.isSome then
       (calculate_loan_history_score (r.total_loans.getD 0) (r.active_loans.getD 0)
         (r.overdue_loans.getD 0) : ℚ) * (10/100)
     else 0
   | none => 0) +
  (match device_info with
   | some d =>
     match d.device_type with
     | some s => (calculate_device_score s : ℚ) * (3/100)
     | none => 0
   | none => 0) +
  (match device_info with
   | some d =>
     match d.region with
     | some s => (calculate_region_score s : ℚ) * (2/100)
     | none => 0
   | none => 0)

/-- Embeds `normalized_score` of `calculate_total_score`: `if total_weight > 0`
then the renormalized weighted sum, else the default score 50. -/
def normalized_score (p : PersonalInfo) (pdn_risk_level : PDNRiskLevel)
    (loan_history : Option LoanHistoryRec) (device_info : Option DeviceInfo) : ℚ :=
  if 0 < total_weight p loan_history device_info then
    total_weighted_score p pdn_risk_level loan_history device_info /
      (total_weight p loan_history device_info : ℚ) * 100
  else 50

/-- Embeds `final_score` of `calculate_total_score`:
`int(normalized_score + (50 if has_referral else 0))`. -/
def final_score (p : PersonalInfo) (pdn_risk_level : PDNRiskLevel)
    (loan_history : Option LoanHistoryRec) (device_info : Option DeviceInfo)
    (has_referral : Bool) : ℤ :=
  pyInt (normalized_score p pdn_risk_level loan_history device_info +
    (if has_referral then 50 else 0))

/-- Embeds `scaled_score` of `calculate_total_score`:
`min(900, max(300, 300 + final_score * 6))`. -/
def scaled_score (p : PersonalInfo) (pdn_risk_level : PDNRiskLevel)
    (loan_history : Option LoanHistoryRec) (device_info : Option DeviceInfo)
    (has_referral : Bool) : ℤ :=
  min 900 (max 300 (300 + final_score p pdn_risk_level loan_history device_info has_referral * 6))

/-- Category assignment of `calculate_total_score`. -/
def score_category (scaled : ℤ) : ScoreCategory :=
  if 800 ≤ scaled then .excellent
  else if 700 ≤ scaled then .good
  else if 600 ≤ scaled then .fair
  else if 500 ≤ scaled then .poor
  else .very_poor

/-- Approval probability assigned alongside the category. -/
def approval_probability (scaled : ℤ) : ℤ :=
  if 800 ≤ scaled then 95
  else if 700 ≤ scaled then 80
  else if 600 ≤ scaled then 60
  else if 500 ≤ scaled then 30
  else 10

/-- Result dict of `calculate_total_score` (the `summary` and
`recommendations` entries — presentation strings and a timestamp — are
omitted). -/
structure ScoringResult where
  credit_score : ℤ
  category : ScoreCategory
  approval_probability : ℤ
  factors : List ScoreFactor
  deriving DecidableEq

/-- Embeds `calculate_total_score` from `app/services/scoring.py`, assembled from
the factor blocks and accumulators above. -/
def calculate_total_score (p : PersonalInfo) (pdn_risk_level : PDNRiskLevel)
    (loan_history : Option LoanHistoryRec) (device_info : Option DeviceInfo)
    (has_referral : Bool) : ScoringResult :=
  let scaled := scaled_score p pdn_risk_level loan_history device_info has_referral
  { credit_score := scaled
    category := score_category scaled
    approval_probability := approval_probability scaled
    factors := scoringFactors p pdn_risk_level loan_history device_info has_referral }

/-! ### Helper lemmas about the rounding primitives -/

theorem halfUpZ_intCast (k : ℤ) : halfUpZ (k : ℚ) = k := by
  unfold halfUpZ
  rcases lt_or_le (k : ℚ) 0 with h | h
  · rw [if_pos h]
    have h1 : -(k : ℚ) + 1/2 = ((-k : ℤ) : ℚ) + 1/2 := by norm_num
    rw [h1, Int.floor_int_add, show ⌊(1:ℚ)/2⌋ = 0 by norm_num]
    ring

  · rw [if_neg (not_lt.mpr h), show (k : ℚ) + 1/2 = ((k : ℤ) : ℚ) + 1/2 by push_cast; ring,
      Int.floor_int_add, show ⌊(1:ℚ)/2⌋ = 0 by norm_num]
    ring

theorem quantize_one (x : ℚ) : quantize 1 x = halfUpZ x := by
  unfold quantize
  rw [div_one, mul_one]

theorem halfUpZ_le (x : ℚ) : (halfUpZ x : ℚ) ≤ x + 1/2 := by
  unfold halfUpZ
  rcases lt_or_le x 0 with h | h
  · rw [if_pos h]
    have h2 : (⌊-x + 1/2⌋ : ℚ) ≥ -x + 1/2 - 1 := by linarith [Int.sub_one_lt_floor (-x + 1/2)]
    push_cast
    linarith
  · rw [if_neg (not_lt.mpr h)]
    exact_mod_cast le_trans (Int.floor_le (x + 1/2)) (by norm_num)

theorem le_halfUpZ (x : ℚ) : x - 1/2 ≤ (halfUpZ x : ℚ) := by
  unfold halfUpZ
  rcases lt_or_le x 0 with h | h
  · rw [if_pos h]
    have h2 := Int.floor_le (-x + 1/2)
    push_cast
    linarith
  · rw [if_neg (not_lt.mpr h)]
    have h2 := Int.sub_one_lt_floor (x + 1/2)
    push_cast
    linarith

/-- Embeds `halfUpZ` is monotone on nonnegative arguments. -/
theorem halfUpZ_mono_nonneg {x y : ℚ} (hx : 0 ≤ x) (hxy : x ≤ y) :
    halfUpZ x ≤ halfUpZ y := by
  unfold halfUpZ
  rw [if_neg (not_lt.mpr hx), if_neg (not_lt.mpr (le_trans hx hxy))]
  exact Int.floor_le_floor (by linarith)

/-- Rounding to cents loses less than half a cent downward. -/
theorem quantize_cent_gt {x : ℚ} (hx : 0 ≤ x) : x - 1/200 < quantize (1/100) x := by
  unfold quantize
  rw [show x / (1/100) = x * 100 by ring]
  unfold halfUpZ
  rw [if_neg (not_lt.mpr (by positivity : (0:ℚ) ≤ x * 100))]
  have h2 := Int.sub_one_lt_floor (x * 100 + 1/2)
  push_cast at h2 ⊢
  nlinarith

/-- Rounding to cents adds at most half a cent. -/
theorem quantize_cent_le (x : ℚ) : quantize (1/100) x ≤ x + 1/200 := by
  unfold quantize
  rw [show x / (1/100) = x * 100 by ring]
  have h := halfUpZ_le (x * 100)
  nlinarith [h]

/-- A whole number of cents is a fixed point of cent rounding. -/
theorem quantize_cent_int (k : ℤ) : quantize (1/100) ((k : ℚ) / 100) = (k : ℚ) / 100 := by
  unfold quantize
  rw [show (k : ℚ) / 100 / (1/100) = (k : ℚ) by ring, halfUpZ_intCast]
  ring

/-- Cent rounding of a value that is at least half a cent is at least one
cent. -/
theorem quantize_cent_pos {x : ℚ} (h : 1/200 ≤ x) : 1/100 ≤ quantize (1/100) x := by
  unfold quantize
  have h0 : (0 : ℚ) ≤ 1/2 := by norm_num
  have hm : halfUpZ (1/2 : ℚ) ≤ halfUpZ (x / (1/100)) := by
    apply halfUpZ_mono_nonneg h0
    rw [show x / (1/100) = x * 100 by ring]
    linarith
  have h12 : halfUpZ (1/2 : ℚ) = 1 := by
    unfold halfUpZ
    norm_num
  rw [h12] at hm
  have : (1 : ℚ) ≤ (halfUpZ (x / (1/100)) : ℚ) := by exact_mod_cast hm
  nlinarith

/-! ### C6 — risk-tier thresholds -/

/-- C6: `get_pdn_risk_level` classifies exactly by the documented
thresholds (`<30` low, `[30,50)` medium, `[50,65)` high, `≥65` critical),
and the six boundary values 29.99, 30.00, 49.99, 50.00, 64.99, 65.00 map
to low, medium, medium, high, high, critical respectively. -/
theorem risk_level_thresholds :
    (∀ pdn : ℚ,
      (get_pdn_risk_level pdn = .low ↔ pdn < 30) ∧
      (get_pdn_risk_level pdn = .medium ↔ 30 ≤ pdn ∧ pdn < 50) ∧
      (get_pdn_risk_level pdn = .high ↔ 50 ≤ pdn ∧ pdn < 65) ∧
      (get_pdn_risk_level pdn = .critical ↔ 65 ≤ pdn)) ∧
    get_pdn_risk_level (2999/100) = .low ∧
    get_pdn_risk_level 30 = .medium ∧
    get_pdn_risk_level (4999/100) = .medium ∧
    get_pdn_risk_level 50 = .high ∧
    get_pdn_risk_level (6499/100) = .high ∧
    get_pdn_risk_level 65 = .critical := by
  refine ⟨fun pdn => ?_, ?_, ?_, ?_, ?_, ?_, ?_⟩
  · unfold get_pdn_risk_level
    split_ifs with h1 h2 h3 <;>
      refine ⟨?_, ?_, ?_, ?_⟩ <;> simp_all <;>
      first
      | (constructor <;> linarith)
      | (intros; linarith)
  all_goals norm_num [get_pdn_risk_level]

/-! ### C3 — the 100,000-increment rounding is in fact integer rounding -/

/-- C3 (refutation): the code quantizes with `Decimal('100000')`, whose
exponent is 0, so candidate and result amounts are rounded to whole units,
not to 100,000-unit increments: `calculate_max_loan_amount` returns
500001 (not a multiple of 100,000) for a zero-rate one-month loan with
income 1,000,002, and the binary search of the auto-correction, run on the
range [1, 1000001], converges to the lower bound 937501 with candidate
amounts 500001, 750001, 875001, 937501 — none of them multiples of
100,000. -/
theorem amounts_not_rounded_to_100000 :
    calculate_max_loan_amount 0 1 1000002 0 50 = 500001 ∧
    ¬ ((100000 : ℤ) ∣ 500001) ∧
    binary_search_loop 64 0 36 1000000000 0 50 1 1000001 =
      some (.ok (937501, 1000001)) ∧
    ¬ ((100000 : ℤ) ∣ 937501) := by
  refine ⟨?_, by decide, ?_, by decide⟩
  · norm_num [calculate_max_loan_amount, quantize, halfUpZ, MAX_LOAN_AMOUNT, MIN_LOAN_AMOUNT]
  · rw [show (64:ℕ) = 63+1 from rfl, binary_search_loop_succ]
    norm_num [quantize, halfUpZ, calculate_monthly_payment, calculate_pdn]
    rw [show (63:ℕ) = 62+1 from rfl, binary_search_loop_succ]
    norm_num [quantize, halfUpZ, calculate_monthly_payment, calculate_pdn]
    rw [show (62:ℕ) = 61+1 from rfl, binary_search_loop_succ]
    norm_num [quantize, halfUpZ, calculate_monthly_payment, calculate_pdn]
    rw [show (61:ℕ) = 60+1 from rfl, binary_search_loop_succ]
    norm_num [quantize, halfUpZ, calculate_monthly_payment, calculate_pdn]
    rw [show (60:ℕ) = 59+1 from rfl, binary_search_loop_succ]
    norm_num

/-! ### C1 / C4 — the binary search can return an unverified minimum amount -/

/-- The loop variable `min_amount` is either returned unchanged or replaced
by a midpoint at least 49,999 units larger: this is what justifies the
numeric detection of the never-reassigned int lower bound in
`reduce_amount_step`. -/
theorem binary_search_loop_min_unchanged_or_larger :
    ∀ (fuel : ℕ) (annual_rate : ℚ) (months : ℤ)
      (monthly_income other_monthly_payments target_pdn lo hi lo2 hi2 : ℚ),
      binary_search_loop fuel annual_rate months monthly_income other_monthly_payments
        target_pdn lo hi = some (.ok (lo2, hi2)) →
      lo2 = lo ∨ lo + 49999 ≤ lo2 := by
  intro fuel
  induction fuel with
  | zero =>
    intro annual_rate months monthly_income other_monthly_payments target_pdn lo hi lo2 hi2 h
    simp only [binary_search_loop] at h
    split_ifs at h
    left
    simp only [Option.some.injEq, Except.ok.injEq, Prod.mk.injEq] at h
    exact h.1.symm
  | succ n ih =>
    intro annual_rate months monthly_income other_monthly_payments target_pdn lo hi lo2 hi2 h
    rw [binary_search_loop_succ] at h
    by_cases hw : hi - lo > 100000
    · rw [if_pos hw] at h
      have hq : quantize 1 ((lo + hi) / 2) =
          ((halfUpZ ((lo + hi) / 2) : ℤ) : ℚ) := quantize_one _
      have hlo2 := le_halfUpZ ((lo + hi) / 2)
      have hmid : lo + 49999 ≤ quantize 1 ((lo + hi) / 2) := by
        rw [hq]
        linarith
      split at h
      · simp at h
      · split at h
        · simp at h
        · split_ifs at h with hle
          · rcases ih annual_rate months monthly_income other_monthly_payments target_pdn
                _ _ _ _ h with h3 | h3
            · right
              rw [h3]
              exact hmid
            · right
              linarith
          · exact ih annual_rate months monthly_income other_monthly_payments target_pdn
              _ _ _ _ h
    · rw [if_neg hw] at h
      left
      simp only [Option.some.injEq, Except.ok.injEq, Prod.mk.injEq] at h
      exact h.1.symm

theorem eval_validate_100_36 : validate_loan_params 100 36 = true := by
  norm_num [validate_loan_params, MIN_LOAN_AMOUNT, MAX_LOAN_AMOUNT,
    MIN_LOAN_TERM_MONTHS, MAX_LOAN_TERM_MONTHS]

theorem eval_validate_1_36 : validate_loan_params 1 36 = true := by
  norm_num [validate_loan_params, MIN_LOAN_AMOUNT, MAX_LOAN_AMOUNT,
    MIN_LOAN_TERM_MONTHS, MAX_LOAN_TERM_MONTHS]

theorem eval_mp_100_12_36 : calculate_monthly_payment 100 12 36 = .ok (83/25) := by
  norm_num [calculate_monthly_payment, quantize, halfUpZ, show (36:ℤ).toNat = 36 from rfl]

theorem eval_mp_1_12_36 : calculate_monthly_payment 1 12 36 = .ok (3/100) := by
  norm_num [calculate_monthly_payment, quantize, halfUpZ, show (36:ℤ).toNat = 36 from rfl]

theorem eval_pdn_332 : calculate_pdn (83/25) 100 (4999/100) = .ok (5331/100) := by
  norm_num [calculate_pdn, quantize, halfUpZ]

theorem eval_pdn_003 : calculate_pdn (3/100) 100 (4999/100) = .ok (2501/50) := by
  norm_num [calculate_pdn, quantize, halfUpZ]

theorem eval_bs_1_100 :
    binary_search_loop 64 12 36 100 (4999/100) 50 1 100 = some (.ok (1, 100)) := by
  rw [show (64:ℕ) = 63+1 from rfl, binary_search_loop_succ]
  norm_num

theorem eval_bs_1_1 :
    binary_search_loop 64 12 36 100 (4999/100) 50 1 1 = some (.ok (1, 1)) := by
  rw [show (64:ℕ) = 63+1 from rfl, binary_search_loop_succ]
  norm_num

theorem eval_risk_5331 : get_pdn_risk_level (5331/100) = .high := by
  norm_num [get_pdn_risk_level]

theorem eval_risk_5002 : get_pdn_risk_level (2501/50) = .high := by
  norm_num [get_pdn_risk_level]

theorem eval_reduce_100 :
    reduce_amount_step 100 12 36 100 (4999/100) 50 [] =
      .ok ⟨1, 36, 3/100, 2501/50, .high, true, [.amount_reduced 100 1]⟩ := by
  simp only [reduce_amount_step, MIN_LOAN_AMOUNT, eval_bs_1_100, eval_mp_1_12_36,
    eval_pdn_003, eval_risk_5002]
  norm_num

theorem eval_reduce_1 :
    reduce_amount_step 1 12 36 100 (4999/100) 50 [] =
      .ok ⟨1, 36, 3/100, 2501/50, .high, true, [.amount_reduced 1 1]⟩ := by
  simp only [reduce_amount_step, MIN_LOAN_AMOUNT, eval_bs_1_1, eval_mp_1_12_36,
    eval_pdn_003, eval_risk_5002]
  norm_num

/-- C1 (code bug): `auto_correct_loan_params` can return normally with a
PDN strictly above the target.  With amount 100, rate 12, term 36, income
100, other payments 49.99 and target 50, the search interval [1, 100] is
narrower than the 100,000 precision band, so the loop body never runs and
the unverified lower bound `settings.MIN_LOAN_AMOUNT` is returned (at this
nonzero rate the annuity branch coerces the int via `int * Decimal`, so no
AttributeError occurs): the final PDN is 50.02 > 50, contradicting the
source's own "Use the lower amount to ensure we stay under target PDN". -/
theorem auto_correct_exceeds_target :
    auto_correct_loan_params 100 12 36 100 (4999/100) 50 =
      .ok ⟨1, 36, 3/100, 2501/50, .high, true, [.amount_reduced 100 1]⟩ ∧
    (50 : ℚ) < 2501/50 := by
  constructor
  · simp only [auto_correct_loan_params, eval_validate_100_36, eval_mp_100_12_36,
      eval_pdn_332, eval_reduce_100]
    norm_num
  · norm_num

/-- C4 (code bug): auto-correction is not idempotent.  Running
`auto_correct_loan_params` on the output of the run of
`auto_correct_exceeds_target` (amount 1, term 36, same rate 12/income/
obligations/target) yields `corrected = true` with a non-empty correction
list again, because the returned PDN 50.02 still exceeds the target 50. -/
theorem auto_correct_not_idempotent :
    auto_correct_loan_params 100 12 36 100 (4999/100) 50 =
      .ok ⟨1, 36, 3/100, 2501/50, .high, true, [.amount_reduced 100 1]⟩ ∧
    auto_correct_loan_params 1 12 36 100 (4999/100) 50 =
      .ok ⟨1, 36, 3/100, 2501/50, .high, true, [.amount_reduced 1 1]⟩ := by
  constructor
  · simp only [auto_correct_loan_params, eval_validate_100_36, eval_mp_100_12_36,
      eval_pdn_332, eval_reduce_100]
    norm_num
  · simp only [auto_correct_loan_params, eval_validate_1_36, eval_mp_1_12_36,
      eval_pdn_003, eval_reduce_1]
    norm_num

/-! ### C7 — negative rates are not rejected by the calculation functions -/

theorem validate_loan_params_iff (amount : ℚ) (months : ℤ) :
    validate_loan_params amount months = true ↔
      1 ≤ amount ∧ amount ≤ 100000000 ∧ 1 ≤ months ∧ months ≤ 36 := by
  simp [validate_loan_params, MIN_LOAN_AMOUNT, MAX_LOAN_AMOUNT,
    MIN_LOAN_TERM_MONTHS, MAX_LOAN_TERM_MONTHS, and_assoc]

/-- C7 (refutation at a concrete input): `calculate_loan_details` with the
negative annual rate −12 returns a computed result instead of failing. -/
theorem negative_rate_computes :
    (calculate_loan_details 1000000 (-12) 12).isOk = true := by
  norm_num [calculate_loan_details, validate_loan_params, calculate_monthly_payment,
    calculate_total_cost, calculate_overpayment, calculate_effective_rate,
    quantize, halfUpZ, MIN_LOAN_AMOUNT, MAX_LOAN_AMOUNT, MIN_LOAN_TERM_MONTHS,
    MAX_LOAN_TERM_MONTHS, Except.isOk, Except.toBool, show (12:ℤ).toNat = 12 from rfl]

/-- C7 (amended): the calculator performs no rate validation at all — for
every amount/term accepted by `validate_loan_params` and every annual rate
above −1200 (where the annuity denominator stays nonzero),
`calculate_monthly_payment` returns a computed payment; negative rates are
screened out only by the request schemas (`ge=0`), outside the
calculator. -/
theorem calculator_has_no_rate_rejection :
    (∀ (amount annual_rate : ℚ) (months : ℤ),
      validate_loan_params amount months = true → -1200 < annual_rate →
      ∃ p, calculate_monthly_payment amount annual_rate months = .ok p) ∧
    (∀ annual_rate : ℚ, annual_rate < 0 → schema_annual_rate_ok annual_rate = false) := by
  constructor
  · intro amount annual_rate months hv hr
    rcases (validate_loan_params_iff amount months).mp hv with ⟨ha1, _, hm1, _⟩
    simp only [calculate_monthly_payment]
    rw [if_neg (by omega : ¬ months ≤ 0), if_neg (not_le.mpr (by linarith : (0:ℚ) < amount))]
    by_cases h0 : annual_rate / 100 / 12 = 0
    · rw [if_pos h0]
      exact ⟨_, rfl⟩
    · rw [if_neg h0]
      have hmr : annual_rate / 100 / 12 = annual_rate / 1200 := by ring
      have hgt : -1 < annual_rate / 100 / 12 := by
        rw [hmr, lt_div_iff₀ (by norm_num : (0:ℚ) < 1200)]
        linarith
      have hm0 : months.toNat ≠ 0 := by omega
      have hne : (1 + annual_rate / 100 / 12) ^ months.toNat - 1 ≠ 0 := by
        rcases lt_or_gt_of_ne h0 with hneg | hpos
        · have h1 : (0:ℚ) ≤ 1 + annual_rate / 100 / 12 := by linarith
          have h2 : 1 + annual_rate / 100 / 12 < 1 := by linarith
          have h3 := pow_lt_one₀ h1 h2 hm0
          intro hc
          have := sub_eq_zero.mp hc
          linarith
        · have h1 : (1:ℚ) < 1 + annual_rate / 100 / 12 := by linarith
          have h3 := one_lt_pow₀ h1 hm0
          intro hc
          have := sub_eq_zero.mp hc
          linarith
      rw [if_neg hne]
      exact ⟨_, rfl⟩
  · intro annual_rate hr
    simp [schema_annual_rate_ok, not_le.mpr hr]

/-- Witness for `calculator_has_no_rate_rejection` at amount 1,000,000,
rate −12, term 12. -/
theorem calculator_has_no_rate_rejection_witness :
    (∃ p, calculate_monthly_payment 1000000 (-12) 12 = .ok p) ∧
    schema_annual_rate_ok (-12) = false :=
  ⟨calculator_has_no_rate_rejection.1 1000000 (-12) 12
      (by norm_num [validate_loan_params, MIN_LOAN_AMOUNT, MAX_LOAN_AMOUNT,
        MIN_LOAN_TERM_MONTHS, MAX_LOAN_TERM_MONTHS]) (by norm_num),
    calculator_has_no_rate_rejection.2 (-12) (by norm_num)⟩

/-! ### C5 — termination of the binary-search loop -/

/-- C5: the binary-search loop terminates with a logarithmic iteration
bound, and each iteration strictly shrinks the interval.  First conjunct:
whenever the initial width `max_amount - min_amount` is at most
`99999 * 2 ^ fuel + 1`, the loop finishes (returns `some _`) within `fuel`
iterations — so the iteration count is logarithmic in the width divided by
the 100,000-unit precision band.  Second conjunct: while the width exceeds
100,000, the midpoint splits the interval into two strictly smaller
halves. -/
theorem binary_search_loop_terminates :
    (∀ (fuel : ℕ) (annual_rate : ℚ) (months : ℤ)
        (monthly_income other_monthly_payments target_pdn min_amount max_amount : ℚ),
      max_amount - min_amount ≤ 99999 * 2 ^ fuel + 1 →
      (binary_search_loop fuel annual_rate months monthly_income
        other_monthly_payments target_pdn min_amount max_amount).isSome = true) ∧
    (∀ min_amount max_amount : ℚ, 100000 < max_amount - min_amount →
      max_amount - quantize 1 ((min_amount + max_amount) / 2) < max_amount - min_amount ∧
      quantize 1 ((min_amount + max_amount) / 2) - min_amount < max_amount - min_amount) := by
  constructor
  · intro fuel
    induction fuel with
    | zero =>
      intro annual_rate months monthly_income other_monthly_payments target_pdn
        min_amount max_amount h
      simp only [binary_search_loop]
      rw [if_neg (not_lt.mpr (by norm_num at h ⊢; linarith))]
      rfl
    | succ n ih =>
      intro annual_rate months monthly_income other_monthly_payments target_pdn
        min_amount max_amount h
      rw [binary_search_loop_succ]
      by_cases hw : max_amount - min_amount > 100000
      · rw [if_pos hw]
        have hq : quantize 1 ((min_amount + max_amount) / 2) =
            ((halfUpZ ((min_amount + max_amount) / 2) : ℤ) : ℚ) := quantize_one _
        have hup := halfUpZ_le ((min_amount + max_amount) / 2)
        have hlo := le_halfUpZ ((min_amount + max_amount) / 2)
        have hpow : (2:ℚ) ^ (n + 1) = 2 * 2 ^ n := by ring
        rw [hpow] at h
        cases h1 : calculate_monthly_payment (quantize 1 ((min_amount + max_amount) / 2))
            annual_rate months with
        | error e => simp
        | ok mid_payment =>
          cases h2 : calculate_pdn mid_payment monthly_income other_monthly_payments with
          | error e => simp [h2]
          | ok mid_pdn =>
            simp only [h2]
            split_ifs with hle
            · exact ih annual_rate months monthly_income other_monthly_payments target_pdn
                _ _ (by rw [hq]; push_cast; linarith)
            · exact ih annual_rate months monthly_income other_monthly_payments target_pdn
                _ _ (by rw [hq]; push_cast; linarith)
      · rw [if_neg hw]
        rfl
  · intro min_amount max_amount h
    have hq : quantize 1 ((min_amount + max_amount) / 2) =
        ((halfUpZ ((min_amount + max_amount) / 2) : ℤ) : ℚ) := quantize_one _
    have hup := halfUpZ_le ((min_amount + max_amount) / 2)
    have hlo := le_halfUpZ ((min_amount + max_amount) / 2)
    rw [hq]
    constructor <;> linarith

/-- Witness for `binary_search_loop_terminates` at the full system range
[1, 100,000,000]: fuel 11 suffices (log₂(10⁸/10⁵) < 11). -/
theorem binary_search_loop_terminates_witness :
    (binary_search_loop 11 24 36 2000000 0 50 1 100000000).isSome = true :=
  binary_search_loop_terminates.1 11 24 36 2000000 0 50 1 100000000 (by norm_num)

/-! ### C9 — weight accounting of the scoring aggregation -/

theorem ageFactor_wsum (p : PersonalInfo) :
    (((ageFactor p).filter (fun f => decide (f.factor ≠ ScoringFactor.referral))).map
      ScoreFactor.weight).sum = if p.age.isSome then 15 else 0 := by
  cases hp : p.age <;> simp [ageFactor, hp]

theorem genderFactor_wsum (p : PersonalInfo) :
    (((genderFactor p).filter (fun f => decide (f.factor ≠ ScoringFactor.referral))).map
      ScoreFactor.weight).sum = if p.gender.isSome then 5 else 0 := by
  cases hp : p.gender <;> simp [genderFactor, hp]

theorem maritalFactor_wsum (p : PersonalInfo) :
    (((maritalFactor p).filter (fun f => decide (f.factor ≠ ScoringFactor.referral))).map
      ScoreFactor.weight).sum = if p.marital_status.isSome then 5 else 0 := by
  cases hp : p.marital_status <;> simp [maritalFactor, hp]

theorem educationFactor_wsum (p : PersonalInfo) :
    (((educationFactor p).filter (fun f => decide (f.factor ≠ ScoringFactor.referral))).map
      ScoreFactor.weight).sum = if p.education.isSome then 10 else 0 := by
  cases hp : p.education <;> simp [educationFactor, hp]

theorem employmentFactor_wsum (p : PersonalInfo) :
    (((employmentFactor p).filter (fun f => decide (f.factor ≠ ScoringFactor.referral))).map
      ScoreFactor.weight).sum = if p.employment_type.isSome then 20 else 0 := by
  cases hp : p.employment_type <;> simp [employmentFactor, hp]

theorem incomeFactor_wsum (p : PersonalInfo) :
    (((incomeFactor p).filter (fun f => decide (f.factor ≠ ScoringFactor.referral))).map
      ScoreFactor.weight).sum =
      if p.monthly_income.isSome && p.income_source.isSome then 20 else 0 := by
  cases hi : p.monthly_income <;> cases hs : p.income_source <;> simp [incomeFactor, hi, hs]

theorem livingFactor_wsum (p : PersonalInfo) :
    (((livingFactor p).filter (fun f => decide (f.factor ≠ ScoringFactor.referral))).map
      ScoreFactor.weight).sum = if p.living_arrangement.isSome then 5 else 0 := by
  cases hp : p.living_arrangement <;> simp [livingFactor, hp]

theorem pdnFactor_wsum (pdn_risk_level : PDNRiskLevel) :
    (((pdnFactor pdn_risk_level).filter
      (fun f => decide (f.factor ≠ ScoringFactor.referral))).map ScoreFactor.weight).sum = 15 := by
  simp [pdnFactor]

theorem historyFactor_wsum (lh : Option LoanHistoryRec) :
    (((historyFactor lh).filter (fun f => decide (f.factor ≠ ScoringFactor.referral))).map
      ScoreFactor.weight).sum = if loanHistoryTruthy lh then 10 else 0 := by
  cases lh with
  | none => simp [historyFactor, loanHistoryTruthy]
  | some r =>
    by_cases hr : (r.total_loans.isSome || r.active_loans.isSome || r.overdue_loans.isSome) = true <;>
      simp_all [historyFactor, loanHistoryTruthy]

theorem deviceFactor_wsum (di : Option DeviceInfo) :
    (((deviceFactor di).filter (fun f => decide (f.factor ≠ ScoringFactor.referral))).map
      ScoreFactor.weight).sum = if deviceTypePresent di then 3 else 0 := by
  cases di with
  | none => simp [deviceFactor, deviceTypePresent]
  | some d => cases hd : d.device_type <;> simp [deviceFactor, deviceTypePresent, hd]

theorem regionFactor_wsum (di : Option DeviceInfo) :
    (((regionFactor di).filter (fun f => decide (f.factor ≠ ScoringFactor.referral))).map
      ScoreFactor.weight).sum = if regionPresent di then 2 else 0 := by
  cases di with
  | none => simp [regionFactor, regionPresent]
  | some d => cases hd : d.region <;> simp [regionFactor, regionPresent, hd]

theorem referralFactor_wsum (b : Bool) :
    (((referralFactor b).filter (fun f => decide (f.factor ≠ ScoringFactor.referral))).map
      ScoreFactor.weight).sum = 0 := by
  cases b <;> simp [referralFactor]

/-- C9: the PDN factor is always present, so the total weight is at least
15 and the `total_weight = 0` default branch is unreachable: the
normalized score always equals `total_weighted_score / total_weight * 100`.
Moreover the `total_weight` accumulator equals the sum of the weights of
exactly the present non-referral entries of the `factors` list. -/
theorem scoring_weight_accounting :
    ∀ (p : PersonalInfo) (pdn_risk_level : PDNRiskLevel)
      (loan_history : Option LoanHistoryRec) (device_info : Option DeviceInfo)
      (has_referral : Bool),
      15 ≤ total_weight p loan_history device_info ∧
      normalized_score p pdn_risk_level loan_history device_info =
        total_weighted_score p pdn_risk_level loan_history device_info /
          (total_weight p loan_history device_info : ℚ) * 100 ∧
      (((scoringFactors p pdn_risk_level loan_history device_info has_referral).filter
          (fun f => decide (f.factor ≠ ScoringFactor.referral))).map
        ScoreFactor.weight).sum = total_weight p loan_history device_info := by
  intro p pdn_risk_level loan_history device_info has_referral
  have h15 : 15 ≤ total_weight p loan_history device_info := by
    unfold total_weight
    have key : ∀ a b c d e f g h i j : ℕ, 15 ≤ a + b + c + d + e + f + g + 15 + h + i + j := by
      intros
      omega
    apply key
  refine ⟨h15, ?_, ?_⟩
  · unfold normalized_score
    rw [if_pos (lt_of_lt_of_le (by norm_num) h15)]
  · unfold scoringFactors
    simp only [List.filter_append, List.map_append, List.sum_append]
    rw [ageFactor_wsum, genderFactor_wsum, maritalFactor_wsum, educationFactor_wsum,
      employmentFactor_wsum, incomeFactor_wsum, livingFactor_wsum, pdnFactor_wsum,
      historyFactor_wsum, deviceFactor_wsum, regionFactor_wsum, referralFactor_wsum]
    unfold total_weight
    omega

/-! ### C10 — inclusion condition of the loan-history factor -/

theorem ageFactor_no_history (p : PersonalInfo) :
    (ageFactor p).any (fun f => decide (f.factor = ScoringFactor.loan_history)) = false := by
  cases hp : p.age <;> simp [ageFactor, hp]

theorem genderFactor_no_history (p : PersonalInfo) :
    (genderFactor p).any (fun f => decide (f.factor = ScoringFactor.loan_history)) = false := by
  cases hp : p.gender <;> simp [genderFactor, hp]

theorem maritalFactor_no_history (p : PersonalInfo) :
    (maritalFactor p).any (fun f => decide (f.factor = ScoringFactor.loan_history)) = false := by
  cases hp : p.marital_status <;> simp [maritalFactor, hp]

theorem educationFactor_no_history (p : PersonalInfo) :
    (educationFactor p).any (fun f => decide (f.factor = ScoringFactor.loan_history)) = false := by
  cases hp : p.education <;> simp [educationFactor, hp]

theorem employmentFactor_no_history (p : PersonalInfo) :
    (employmentFactor p).any (fun f => decide (f.factor = ScoringFactor.loan_history)) = false := by
  cases hp : p.employment_type <;> simp [employmentFactor, hp]

theorem incomeFactor_no_history (p : PersonalInfo) :
    (incomeFactor p).any (fun f => decide (f.factor = ScoringFactor.loan_history)) = false := by
  cases hi : p.monthly_income <;> cases hs : p.income_source <;> simp [incomeFactor, hi, hs]

theorem livingFactor_no_history (p : PersonalInfo) :
    (livingFactor p).any (fun f => decide (f.factor = ScoringFactor.loan_history)) = false := by
  cases hp : p.living_arrangement <;> simp [livingFactor, hp]

theorem pdnFactor_no_history (pdn_risk_level : PDNRiskLevel) :
    (pdnFactor pdn_risk_level).any (fun f => decide (f.factor = ScoringFactor.loan_history)) =
      false := by
  simp [pdnFactor]

theorem deviceFactor_no_history (di : Option DeviceInfo) :
    (deviceFactor di).any (fun f => decide (f.factor = ScoringFactor.loan_history)) = false := by
  cases di with
  | none => simp [deviceFactor]
  | some d => cases hd : d.device_type <;> simp [deviceFactor, hd]

theorem regionFactor_no_history (di : Option DeviceInfo) :
    (regionFactor di).any (fun f => decide (f.factor = ScoringFactor.loan_history)) = false := by
  cases di with
  | none => simp [regionFactor]
  | some d => cases hd : d.region <;> simp [regionFactor, hd]

theorem referralFactor_no_history (b : Bool) :
    (referralFactor b).any (fun f => decide (f.factor = ScoringFactor.loan_history)) = false := by
  cases b <;> simp [referralFactor]

theorem historyFactor_any (lh : Option LoanHistoryRec) :
    (historyFactor lh).any (fun f => decide (f.factor = ScoringFactor.loan_history)) =
      loanHistoryTruthy lh := by
  cases lh with
  | none => simp [historyFactor, loanHistoryTruthy]
  | some r =>
    by_cases hr : (r.total_loans.isSome || r.active_loans.isSome || r.overdue_loans.isSome) = true <;>
      simp_all [historyFactor, loanHistoryTruthy]

/-- C10: `calculate_total_score` includes a loan-history factor iff the
`loan_history` dict is truthy (present and non-empty); an empty or absent
dict contributes no factor and no weight, while a truthy dict whose
`total_loans` entry is missing or 0 contributes the neutral factor of
score 60 (weight 10, weighted contribution 6). -/
theorem loan_history_factor_inclusion :
    ∀ (p : PersonalInfo) (pdn_risk_level : PDNRiskLevel)
      (loan_history : Option LoanHistoryRec) (device_info : Option DeviceInfo)
      (has_referral : Bool),
      ((scoringFactors p pdn_risk_level loan_history device_info has_referral).any
        (fun f => decide (f.factor = ScoringFactor.loan_history)) =
        loanHistoryTruthy loan_history) ∧
      (∀ r : LoanHistoryRec, loan_history = some r →
        loanHistoryTruthy loan_history = true →
        r.total_loans.getD 0 = 0 →
        (⟨ScoringFactor.loan_history, 60, 10, 6⟩ : ScoreFactor) ∈
          scoringFactors p pdn_risk_level loan_history device_info has_referral) := by
  intro p pdn_risk_level loan_history device_info has_referral
  constructor
  · unfold scoringFactors
    simp only [List.any_append, ageFactor_no_history, genderFactor_no_history,
      maritalFactor_no_history, educationFactor_no_history, employmentFactor_no_history,
      incomeFactor_no_history, livingFactor_no_history, pdnFactor_no_history,
      historyFactor_any, deviceFactor_no_history, regionFactor_no_history,
      referralFactor_no_history, Bool.false_or, Bool.or_false]
  · intro r hr htruthy h0
    subst hr
    have hcond : (r.total_loans.isSome || r.active_loans.isSome || r.overdue_loans.isSome) = true := by
      simpa [loanHistoryTruthy] using htruthy
    have hscore : calculate_loan_history_score (r.total_loans.getD 0) (r.active_loans.getD 0)
        (r.overdue_loans.getD 0) = 60 := by
      rw [h0]
      simp [calculate_loan_history_score]
    have hH : historyFactor (some r) = [⟨ScoringFactor.loan_history, 60, 10, 6⟩] := by
      simp only [historyFactor, hcond, if_true, hscore]
      norm_num
    unfold scoringFactors
    rw [hH]
    simp

/-! ### C8 — referral bonus versus the 900 cap -/

theorem pyInt_nonneg {x : ℚ} (hx : 0 ≤ x) : 0 ≤ pyInt x := by
  unfold pyInt
  rw [if_neg (not_lt.mpr hx)]
  exact Int.floor_nonneg.mpr hx

theorem calculate_age_score_nonneg (a : ℤ) : 0 ≤ calculate_age_score a := by
  unfold calculate_age_score
  split_ifs <;> norm_num

theorem calculate_gender_score_nonneg (g : Gender) : 0 ≤ calculate_gender_score g := by
  cases g <;> simp [calculate_gender_score]

theorem calculate_marital_status_score_nonneg (m : MaritalStatus) :
    0 ≤ calculate_marital_status_score m := by
  cases m <;> simp [calculate_marital_status_score]

theorem calculate_education_score_nonneg (e : EducationLevel) :
    0 ≤ calculate_education_score e := by
  cases e <;> simp [calculate_education_score]

theorem calculate_employment_score_nonneg (t : EmploymentType) (d : ℤ) :
    0 ≤ calculate_employment_score t d := by
  unfold calculate_employment_score
  exact le_max_left 0 _

theorem calculate_income_score_nonneg (i : ℚ) (s : IncomeSource) :
    0 ≤ calculate_income_score i s := by
  unfold calculate_income_score
  apply pyInt_nonneg
  apply mul_nonneg
  · split_ifs <;> norm_num
  · cases s <;> norm_num

theorem calculate_living_score_nonneg (l : LivingArrangement) :
    0 ≤ calculate_living_score l := by
  cases l <;> simp [calculate_living_score]

theorem calculate_pdn_score_nonneg (r : PDNRiskLevel) : 0 ≤ calculate_pdn_score r := by
  cases r <;> simp [calculate_pdn_score]

theorem calculate_loan_history_score_nonneg (t a o : ℤ) :
    0 ≤ calculate_loan_history_score t a o := by
  unfold calculate_loan_history_score
  dsimp only
  split_ifs <;> norm_num [le_max_iff]

theorem calculate_device_score_nonneg (s : String) : 0 ≤ calculate_device_score s := by
  unfold calculate_device_score
  dsimp only
  split_ifs <;> norm_num

theorem calculate_region_score_nonneg (s : String) : 0 ≤ calculate_region_score s := by
  unfold calculate_region_score
  dsimp only
  split_ifs <;> norm_num

theorem total_weighted_score_nonneg (p : PersonalInfo) (pdn_risk_level : PDNRiskLevel)
    (loan_history : Option LoanHistoryRec) (device_info : Option DeviceInfo) :
    0 ≤ total_weighted_score p pdn_risk_level loan_history device_info := by
  unfold total_weighted_score
  have hAge : (0:ℚ) ≤ (match p.age with
      | some a => (calculate_age_score a : ℚ) * (15/100)
      | none => 0) := by
    cases p.age with
    | none => norm_num
    | some a =>
      exact mul_nonneg (by exact_mod_cast calculate_age_score_nonneg a) (by norm_num)
  have hGender : (0:ℚ) ≤ (match p.gender with
      | some g => (calculate_gender_score g : ℚ) * (5/100)
      | none => 0) := by
    cases p.gender with
    | none => norm_num
    | some g =>
      exact mul_nonneg (by exact_mod_cast calculate_gender_score_nonneg g) (by norm_num)
  have hMarital : (0:ℚ) ≤ (match p.marital_status with
      | some m => (calculate_marital_status_score m : ℚ) * (5/100)
      | none => 0) := by
    cases p.marital_status with
    | none => norm_num
    | some m =>
      exact mul_nonneg (by exact_mod_cast calculate_marital_status_score_nonneg m) (by norm_num)
  have hEducation : (0:ℚ) ≤ (match p.education with
      | some e => (calculate_education_score e : ℚ) * (10/100)
      | none => 0) := by
    cases p.education with
    | none => norm_num
    | some e =>
      exact mul_nonneg (by exact_mod_cast calculate_education_score_nonneg e) (by norm_num)
  have hEmployment : (0:ℚ) ≤ (match p.employment_type with
      | some t =>
        (calculate_employment_score t (p.employment_duration_months.getD 0) : ℚ) * (20/100)
      | none => 0) := by
    cases p.employment_type with
    | none => norm_num
    | some t =>
      exact mul_nonneg (by exact_mod_cast calculate_employment_score_nonneg t _) (by norm_num)
  have hIncome : (0:ℚ) ≤ (match p.monthly_income, p.income_source with
      | some i, some s => (calculate_income_score i s : ℚ) * (20/100)
      | _, _ => 0) := by
    cases p.monthly_income with
    | none => cases p.income_source <;> norm_num
    | some i =>
      cases p.income_source with
      | none => norm_num
      | some s =>
        exact mul_nonneg (by exact_mod_cast calculate_income_score_nonneg i s) (by norm_num)
  have hLiving : (0:ℚ) ≤ (match p.living_arrangement with
      | some l => (calculate_living_score l : ℚ) * (5/100)
      | none => 0) := by
    cases p.living_arrangement with
    | none => norm_num
    | some l =>
      exact mul_nonneg (by exact_mod_cast calculate_living_score_nonneg l) (by norm_num)
  have hPdn : (0:ℚ) ≤ (calculate_pdn_score pdn_risk_level : ℚ) * (15/100) :=
    mul_nonneg (by exact_mod_cast calculate_pdn_score_nonneg pdn_risk_level) (by norm_num)
  have hHistory : (0:ℚ) ≤ (match loan_history with
      | some r =>
        if r.total_loans.isSome || r.active_loans.isSome || r.overdue_loans.isSome then
          (calculate_loan_history_score (r.total_loans.getD 0) (r.active_loans.getD 0)
            (r.overdue_loans.getD 0) : ℚ) * (10/100)
        else 0
      | none => 0) := by
    cases loan_history with
    | none => norm_num
    | some r =>
      dsimp only
      split_ifs
      · exact mul_nonneg (by exact_mod_cast calculate_loan_history_score_nonneg _ _ _) (by norm_num)
      · norm_num
  have hDevOpt : ∀ od : Option String, (0:ℚ) ≤ (match od with
      | some s => (calculate_device_score s : ℚ) * (3/100)
      | none => 0) := by
    intro od
    cases od with
    | none => norm_num
    | some s =>
      exact mul_nonneg (by exact_mod_cast calculate_device_score_nonneg s) (by norm_num)
  have hDevice : ∀ odi : Option DeviceInfo, (0:ℚ) ≤ (match odi with
      | some d =>
        match d.device_type with
        | some s => (calculate_device_score s : ℚ) * (3/100)
        | none => 0
      | none => 0) := by
    intro odi
    cases odi with
    | none => norm_num
    | some d => exact hDevOpt d.device_type
  have hRegOpt : ∀ od : Option String, (0:ℚ) ≤ (match od with
      | some s => (calculate_region_score s : ℚ) * (2/100)
      | none => 0) := by
    intro od
    cases od with
    | none => norm_num
    | some s =>
      exact mul_nonneg (by exact_mod_cast calculate_region_score_nonneg s) (by norm_num)
  have hRegion : ∀ odi : Option DeviceInfo, (0:ℚ) ≤ (match odi with
      | some d =>
        match d.region with
        | some s => (calculate_region_score s : ℚ) * (2/100)
        | none => 0
      | none => 0) := by
    intro odi
    cases odi with
    | none => norm_num
    | some d => exact hRegOpt d.region
  exact add_nonneg (add_nonneg (add_nonneg (add_nonneg (add_nonneg (add_nonneg (add_nonneg
    (add_nonneg (add_nonneg (add_nonneg hAge hGender) hMarital) hEducation) hEmployment)
    hIncome) hLiving) hPdn) hHistory) (hDevice device_info)) (hRegion device_info)

theorem normalized_score_nonneg (p : PersonalInfo) (pdn_risk_level : PDNRiskLevel)
    (loan_history : Option LoanHistoryRec) (device_info : Option DeviceInfo) :
    0 ≤ normalized_score p pdn_risk_level loan_history device_info := by
  unfold normalized_score
  split_ifs
  · apply mul_nonneg _ (by norm_num)
    exact div_nonneg (total_weighted_score_nonneg p pdn_risk_level loan_history device_info)
      (by positivity)
  · norm_num

theorem final_score_nonneg (p : PersonalInfo) (pdn_risk_level : PDNRiskLevel)
    (loan_history : Option LoanHistoryRec) (device_info : Option DeviceInfo) (b : Bool) :
    0 ≤ final_score p pdn_risk_level loan_history device_info b := by
  unfold final_score
  apply pyInt_nonneg
  have := normalized_score_nonneg p pdn_risk_level loan_history device_info
  cases b <;> simp <;> linarith

theorem final_score_referral_eq (p : PersonalInfo) (pdn_risk_level : PDNRiskLevel)
    (loan_history : Option LoanHistoryRec) (device_info : Option DeviceInfo) :
    final_score p pdn_risk_level loan_history device_info true =
      final_score p pdn_risk_level loan_history device_info false + 50 := by
  have hns := normalized_score_nonneg p pdn_risk_level loan_history device_info
  unfold final_score
  norm_num
  unfold pyInt
  rw [if_neg (not_lt.mpr (by linarith)), if_neg (not_lt.mpr hns)]
  rw [show normalized_score p pdn_risk_level loan_history device_info + 50 =
    normalized_score p pdn_risk_level loan_history device_info + ((50:ℤ):ℚ) by norm_num]
  rw [Int.floor_add_int]

/-- C8 (amended): with everything else fixed, setting `has_referral` makes
`credit_score` strictly larger whenever the no-referral score is below the
900 cap (when the no-referral score is already 900 both scores are 900). -/
theorem referral_strictly_increases_below_cap :
    ∀ (p : PersonalInfo) (pdn_risk_level : PDNRiskLevel)
      (loan_history : Option LoanHistoryRec) (device_info : Option DeviceInfo),
      (calculate_total_score p pdn_risk_level loan_history device_info false).credit_score < 900 →
      (calculate_total_score p pdn_risk_level loan_history device_info false).credit_score <
        (calculate_total_score p pdn_risk_level loan_history device_info true).credit_score := by
  intro p pdn_risk_level loan_history device_info h
  simp only [calculate_total_score] at h ⊢
  unfold scaled_score at h ⊢
  rw [final_score_referral_eq]
  set f := final_score p pdn_risk_level loan_history device_info false with hf
  have hf0 : 0 ≤ f := final_score_nonneg p pdn_risk_level loan_history device_info false
  rw [max_eq_right (by linarith : (300:ℤ) ≤ 300 + f * 6)] at h ⊢
  rw [max_eq_right (by linarith : (300:ℤ) ≤ 300 + (f + 50) * 6)]
  have hlt : 300 + f * 6 < 900 := by
    by_contra hge
    push_neg at hge
    rw [min_eq_left hge] at h
    exact lt_irrefl _ h
  rw [min_eq_right (le_of_lt hlt)]
  apply lt_min
  · exact hlt
  · linarith

/-- A `personal_data` dict with no keys at all. -/
def noPersonal : PersonalInfo := ⟨none, none, none, none, none, none, none, none, none⟩

/-- A `personal_data` dict with only the employment keys (employed, 40
months of tenure), whose weighted factor score of 120 pushes the
normalized score above 100. -/
def employedOnly : PersonalInfo :=
  ⟨none, none, none, none, some .employed, some 40, none, none, none⟩

/-- Witness for `referral_strictly_increases_below_cap`: with only the PDN
factor (medium), the no-referral score is 720 < 900 and the referral score
is strictly larger. -/
theorem referral_strictly_increases_below_cap_witness :
    (calculate_total_score noPersonal PDNRiskLevel.medium none none false).credit_score <
      (calculate_total_score noPersonal PDNRiskLevel.medium none none true).credit_score :=
  referral_strictly_increases_below_cap noPersonal PDNRiskLevel.medium none none (by
    norm_num [calculate_total_score, scaled_score, final_score, pyInt, normalized_score,
      total_weight, total_weighted_score, noPersonal, calculate_pdn_score,
      loanHistoryTruthy, deviceTypePresent, regionPresent])

/-- C8 (refutation of the unrestricted claim): with an employment factor of
120 (employed, >3 years) and a low-PDN factor, the normalized score
exceeds 100, so the 300–900 clamp is already saturated without the
referral: both scores equal 900 and the referral bonus does not strictly
increase the score. -/
theorem referral_no_increase_at_cap :
    (calculate_total_score employedOnly PDNRiskLevel.low none none false).credit_score = 900 ∧
    (calculate_total_score employedOnly PDNRiskLevel.low none none true).credit_score = 900 ∧
    ¬ ((calculate_total_score employedOnly PDNRiskLevel.low none none false).credit_score <
        (calculate_total_score employedOnly PDNRiskLevel.low none none true).credit_score) := by
  have h1 : (calculate_total_score employedOnly PDNRiskLevel.low none none false).credit_score
      = 900 := by
    norm_num [calculate_total_score, scaled_score, final_score, pyInt, normalized_score,
      total_weight, total_weighted_score, employedOnly, calculate_pdn_score,
      calculate_employment_score, loanHistoryTruthy, deviceTypePresent, regionPresent]
  have h2 : (calculate_total_score employedOnly PDNRiskLevel.low none none true).credit_score
      = 900 := by
    norm_num [calculate_total_score, scaled_score, final_score, pyInt, normalized_score,
      total_weight, total_weighted_score, employedOnly, calculate_pdn_score,
      calculate_employment_score, loanHistoryTruthy, deviceTypePresent, regionPresent]
  exact ⟨h1, h2, by rw [h1, h2]; exact lt_irrefl 900⟩

/-- Witness for `loan_history_factor_inclusion`: a loan-history dict with
`total_loans = 0` and one active loan yields the neutral factor entry. -/
theorem loan_history_factor_inclusion_witness :
    ((scoringFactors noPersonal PDNRiskLevel.low (some ⟨some 0, some 1, none⟩) none false).any
      (fun f => decide (f.factor = ScoringFactor.loan_history)) =
      loanHistoryTruthy (some ⟨some 0, some 1, none⟩)) ∧
    (⟨ScoringFactor.loan_history, 60, 10, 6⟩ : ScoreFactor) ∈
      scoringFactors noPersonal PDNRiskLevel.low (some ⟨some 0, some 1, none⟩) none false :=
  ⟨(loan_history_factor_inclusion noPersonal PDNRiskLevel.low (some ⟨some 0, some 1, none⟩)
      none false).1,
    (loan_history_factor_inclusion noPersonal PDNRiskLevel.low (some ⟨some 0, some 1, none⟩)
      none false).2 ⟨some 0, some 1, none⟩ rfl (by simp [loanHistoryTruthy]) (by simp)⟩

/-! ### C2 — bounds for `calculate_loan_details` -/

/-- Annuity inequality: `(1+r)^n - 1 ≤ n * r * (1+r)^n` for `r ≥ 0`. -/
theorem annuity_ineq (r : ℚ) (hr : 0 ≤ r) : ∀ n : ℕ, (1+r)^n - 1 ≤ n * r * (1+r)^n := by
  intro n
  induction n with
  | zero => norm_num
  | succ n ih =>
    have h1 : (1:ℚ) ≤ 1 + r := by linarith
    have hpow : (1:ℚ) ≤ (1+r)^(n+1) := one_le_pow₀ h1
    have hpown : (0:ℚ) ≤ (1+r)^n := by positivity
    have step : (1+r)^(n+1) - 1 = ((1+r)^n - 1) * (1+r) + r := by ring
    have h2 : ((1+r)^n - 1) * (1+r) ≤ (n * r * (1+r)^n) * (1+r) :=
      mul_le_mul_of_nonneg_right ih (by linarith)
    have h3 : r ≤ r * (1+r)^(n+1) := le_mul_of_one_le_right hr hpow
    have h4 : (n * r * (1+r)^n) * (1+r) = n * r * (1+r)^(n+1) := by ring
    push_cast
    nlinarith [h2, h3]

/-- The quantized annuity payment of a valid loan is at least one cent, is
a whole number of cents, and exceeds `amount/months - 1/200`. -/
theorem monthly_payment_lower (amount annual_rate : ℚ) (months : ℤ)
    (hv : validate_loan_params amount months = true) (hr : 0 ≤ annual_rate) :
    ∃ mp : ℚ, calculate_monthly_payment amount annual_rate months = .ok mp ∧
      amount / (months : ℚ) - 1/200 < mp ∧ 1/100 ≤ mp ∧ ∃ j : ℤ, mp = (j : ℚ) / 100 := by
  obtain ⟨ha1, ha2, hm1, hm2⟩ := (validate_loan_params_iff amount months).mp hv
  have hmQ : (0:ℚ) < (months : ℚ) := by exact_mod_cast lt_of_lt_of_le one_pos hm1
  have hmQ36 : (months : ℚ) ≤ 36 := by exact_mod_cast hm2
  have hdiv : 1/36 ≤ amount / (months : ℚ) := by
    rw [le_div_iff₀ hmQ]
    nlinarith
  have hquant : ∀ x : ℚ, amount / (months : ℚ) ≤ x →
      amount / (months : ℚ) - 1/200 < quantize (1/100) x ∧ 1/100 ≤ quantize (1/100) x ∧
        ∃ j : ℤ, quantize (1/100) x = (j : ℚ) / 100 := by
    intro x hx
    have hx0 : (0:ℚ) ≤ x := le_trans (le_trans (by norm_num) hdiv) hx
    refine ⟨lt_of_le_of_lt (by linarith) (quantize_cent_gt hx0), ?_, ?_⟩
    · exact quantize_cent_pos (le_trans (le_trans (by norm_num) hdiv) hx)
    · exact ⟨halfUpZ (x / (1/100)), by unfold quantize; ring⟩
  simp only [calculate_monthly_payment]
  rw [if_neg (by omega : ¬ months ≤ 0), if_neg (not_le.mpr (by linarith : (0:ℚ) < amount))]
  by_cases h0 : annual_rate / 100 / 12 = 0
  · rw [if_pos h0]
    exact ⟨_, rfl, hquant _ le_rfl⟩
  · rw [if_neg h0]
    have hmr0 : 0 < annual_rate / 100 / 12 := lt_of_le_of_ne (by positivity) (Ne.symm h0)
    set mr := annual_rate / 100 / 12 with hmr
    have hn0 : months.toNat ≠ 0 := by omega
    have hR1 : (1:ℚ) < (1 + mr) ^ months.toNat := one_lt_pow₀ (by linarith) hn0
    have hRne : (1 + mr) ^ months.toNat - 1 ≠ 0 := by linarith
    rw [if_neg hRne]
    refine ⟨_, rfl, hquant _ ?_⟩
    -- amount / months ≤ amount * (mr * R) / (R - 1)
    set R := (1 + mr) ^ months.toNat with hR
    have hRpos : (0:ℚ) < R := lt_trans one_pos hR1
    have hann := annuity_ineq mr (le_of_lt hmr0) months.toNat
    have hcast : ((months.toNat : ℕ) : ℚ) = (months : ℚ) := by
      rw [show ((months.toNat : ℕ) : ℚ) = ((months.toNat : ℤ) : ℚ) by push_cast; ring]
      rw [Int.toNat_of_nonneg (by omega)]
    rw [hcast] at hann
    rw [div_le_div_iff hmQ (by linarith : (0:ℚ) < R - 1)]
    have hA0 : (0:ℚ) ≤ amount := by linarith
    calc amount * (R - 1) ≤ amount * ((months : ℚ) * mr * R) :=
          mul_le_mul_of_nonneg_left hann hA0
      _ = amount * (mr * R) * (months : ℚ) := by ring

/-- C2 (amended): for every valid input with the amount a whole number of
cents and any rate in [0,100], `calculate_loan_details` succeeds with
`monthly_payment > 0` and `overpayment = total_cost - amount` exactly; but
`total_cost ≥ amount` only holds up to the per-month payment rounding:
`total_cost > amount - months/200` (the monthly payment is rounded to
cents before being multiplied by the term, so up to half a cent per month
can be lost, making `total_cost < amount` and `overpayment < 0` possible). -/
theorem calculate_loan_details_bounds :
    ∀ (amount annual_rate : ℚ) (months k : ℤ),
      validate_loan_params amount months = true →
      0 ≤ annual_rate → annual_rate ≤ 100 →
      amount = (k : ℚ) / 100 →
      ∃ r, calculate_loan_details amount annual_rate months = .ok r ∧
        0 < r.monthly_payment ∧
        r.total_cost = r.monthly_payment * (months : ℚ) ∧
        amount - (months : ℚ) / 200 < r.total_cost ∧
        r.overpayment = r.total_cost - amount := by
  intro amount annual_rate months k hv hr0 _ hAk
  obtain ⟨ha1, _, hm1, _⟩ := (validate_loan_params_iff amount months).mp hv
  have hmQ : (0:ℚ) < (months : ℚ) := by exact_mod_cast lt_of_lt_of_le one_pos hm1
  obtain ⟨mp, hmp, hlow, hcent, j, hj⟩ :=
    monthly_payment_lower amount annual_rate months hv hr0
  have hmp0 : (0:ℚ) < mp := lt_of_lt_of_le (by norm_num) hcent
  have hmul : mp * (months : ℚ) = ((j * months : ℤ) : ℚ) / 100 := by
    rw [hj]
    push_cast
    ring
  have htcq : quantize (1/100) (mp * (months : ℚ)) = mp * (months : ℚ) := by
    rw [hmul, quantize_cent_int]
  have htc : calculate_total_cost mp months = .ok (mp * (months : ℚ)) := by
    unfold calculate_total_cost
    rw [if_neg (by omega : ¬ months ≤ 0), if_neg (not_le.mpr hmp0), htcq]
  have hover : calculate_overpayment amount (mp * (months : ℚ)) =
      mp * (months : ℚ) - amount := by
    unfold calculate_overpayment
    rw [hAk, hmul, show ((j * months : ℤ) : ℚ) / 100 - (k : ℚ) / 100 =
      ((j * months - k : ℤ) : ℚ) / 100 by push_cast; ring, quantize_cent_int]
  unfold calculate_loan_details
  rw [hv]
  simp only [Bool.true_eq_false, if_false, hmp, htc, hover]
  refine ⟨_, rfl, ?_, ?_, ?_, ?_⟩
  · exact hmp0
  · rfl
  · dsimp only
    have h1 := mul_lt_mul_of_pos_right hlow hmQ
    rw [sub_mul, div_mul_cancel₀ _ (ne_of_gt hmQ)] at h1
    have h2 : 1/200 * (months : ℚ) = (months : ℚ) / 200 := by ring
    linarith [h1]
  · rfl

/-- Witness for `calculate_loan_details_bounds` at the spec's concrete
scenario amount 5,000,000, rate 24, term 12. -/
theorem calculate_loan_details_bounds_witness :
    ∃ r, calculate_loan_details 5000000 24 12 = .ok r ∧
      0 < r.monthly_payment ∧
      r.total_cost = r.monthly_payment * (((12:ℤ)) : ℚ) ∧
      5000000 - (((12:ℤ)) : ℚ) / 200 < r.total_cost ∧
      r.overpayment = r.total_cost - 5000000 :=
  calculate_loan_details_bounds 5000000 24 12 500000000
    (by norm_num [validate_loan_params, MIN_LOAN_AMOUNT, MAX_LOAN_AMOUNT,
      MIN_LOAN_TERM_MONTHS, MAX_LOAN_TERM_MONTHS])
    (by norm_num) (by norm_num) (by norm_num)

/-- C2 (refutation of the unqualified claim): at amount 1,000,000, zero
rate, 7 months the monthly payment 1,000,000/7 rounds down to 142,857.14,
so `total_cost = 999,999.98 < amount` and `overpayment = -0.02 < 0`. -/
theorem total_cost_below_amount :
    calculate_loan_details 1000000 0 7 =
      .ok ⟨1000000, 0, 7, 14285714/100, 99999998/100, -(2/100), 0, 0, 0⟩ ∧
    (99999998/100 : ℚ) < 1000000 ∧ -((2:ℚ)/100) < 0 := by
  refine ⟨?_, by norm_num, by norm_num⟩
  norm_num [calculate_loan_details, validate_loan_params, calculate_monthly_payment,
    calculate_total_cost, calculate_overpayment, calculate_effective_rate, quantize,
    halfUpZ, MIN_LOAN_AMOUNT, MAX_LOAN_AMOUNT, MIN_LOAN_TERM_MONTHS, MAX_LOAN_TERM_MONTHS]
